import Mathlib

/-!
# Verification of `projector_utils` axis grouping/ungrouping and tSVD validation

Shallow embedding of `src/projector_utils/merge.py` (`group`, `ungroup`) and of
the split-point validation of `decomp.tsvd` (whose source file is not present;
only its tests are, so that part is modelled from the specification).

A tensor is modelled by its shape (a list of non-negative axis sizes) and its
row-major (C-order) data buffer.  NumPy's `reshape` never reorders a C-order
buffer: it only replaces the shape, checking that the total element count is
preserved.  Hence `group` and `ungroup` are embedded as shape computations that
carry the data through unchanged, exactly as the source's `arr.reshape(...)`
calls do.

`group` calls `arr.reshape(*shape[:begin], -1, *shape[end:])`: the `-1` axis is
inferred by NumPy as `size // known` where `known` is the product of the other
listed axis sizes, and NumPy raises `ValueError` ("cannot reshape array ...")
when `known == 0` or `known` does not divide `size`.  This inference step is
modelled faithfully by `reshapeInfer`.  `ungroup` calls `reshape` with a fully
explicit shape whose product always equals the array size, so it cannot fail
at the reshape step.

Error kinds follow the specification's taxonomy (all surface as `ValueError`
in Python, but with distinct messages / causes).
-/

namespace ProjectorUtils

/-- A dense tensor: a shape (ordered list of non-negative axis sizes) together
with its row-major (C-order) data buffer. -/
structure Tensor (α : Type) where
  shape : List Nat
  data : List α
deriving DecidableEq, Repr

/-- Number of axes, `arr.ndim` in NumPy. -/
def Tensor.ndim {α : Type} (t : Tensor α) : Nat := t.shape.length

/-- Total element count, `arr.size` in NumPy: the product of the axis sizes. -/
def Tensor.size {α : Type} (t : Tensor α) : Nat := t.shape.prod

/-- The error kinds of the specification's taxonomy, plus the `ValueError`
NumPy itself raises when a `-1` axis in `reshape` cannot be inferred. -/
inductive MergeError where
  | invalidAxisRange
  | invalidAxisIndex
  | shapeMismatch
  | cannotReshape
  | invalidSplitPoint
deriving DecidableEq, Repr

/-- Negative-index normalization, `if idx < 0: idx += ndim` in the source. -/
def normIdx (ndim : Nat) (i : Int) : Int := if i < 0 then i + ndim else i

/-- NumPy's `arr.reshape(*pre, -1, *post)`: the `-1` axis is inferred as
`arr.size / known` where `known = prod pre * prod post`; NumPy raises a
`ValueError` when `known = 0` or `known` does not divide `arr.size`.
The C-order buffer is unchanged. -/
def reshapeInfer {α : Type} (arr : Tensor α) (pre post : List Nat) :
    Except MergeError (Tensor α) :=
  let known := pre.prod * post.prod
  if known = 0 ∨ arr.size % known ≠ 0 then Except.error MergeError.cannotReshape
  else Except.ok ⟨pre ++ arr.size / known :: post, arr.data⟩

/-- `group(arr, begin, end)` from `src/projector_utils/merge.py`: normalize
negative `begin`/`end` by adding `ndim`, require `0 <= begin < end <= ndim`
(else `ValueError`, kind `InvalidAxisRange`), then
`arr.reshape(*shape[:begin], -1, *shape[end:])`. -/
def group {α : Type} (arr : Tensor α) (b0 e0 : Int) : Except MergeError (Tensor α) :=
  let b := normIdx arr.ndim b0
  let e := normIdx arr.ndim e0
  if 0 ≤ b ∧ b < e ∧ e ≤ (arr.ndim : Int) then
    reshapeInfer arr (arr.shape.take b.toNat) (arr.shape.drop e.toNat)
  else Except.error MergeError.invalidAxisRange

/-- `ungroup(arr, target, split)` from `src/projector_utils/merge.py`:
normalize a negative `target` by adding `ndim`, require `0 <= target < ndim`
(else `ValueError`, kind `InvalidAxisIndex`); then require
`shape[target] == prod(split)` (else `ValueError`, kind `ShapeMismatch`);
finally `arr.reshape(*shape[:target], *split, *shape[target+1:])`.
Axis sizes in `split` are naturals, per the data model's `SplitShape`
(an ordered sequence of axis sizes). -/
def ungroup {α : Type} (arr : Tensor α) (t0 : Int) (split : List Nat) :
    Except MergeError (Tensor α) :=
  let t := normIdx arr.ndim t0
  if 0 ≤ t ∧ t < (arr.ndim : Int) then
    if arr.shape.getD t.toNat 0 ≠ split.prod then Except.error MergeError.shapeMismatch
    else Except.ok ⟨arr.shape.take t.toNat ++ split ++ arr.shape.drop (t.toNat + 1), arr.data⟩
  else Except.error MergeError.invalidAxisIndex

/-- Modelled from the spec: the split-point validation of `decomp.tsvd`.
The repository file `projector_utils/decomp.py` is not under `src/` (only its
tests are), so per the specification: "`tsvd(arr, nu)` fails with
`InvalidSplitPoint` unless `1 ≤ nu ≤ d - 1`" where `d = ndim(arr)`; when the
check passes, `tsvd` goes on to the reshape/SVD pipeline.  Only the validation
outcome is modelled here. -/
def tsvdCheck {α : Type} (arr : Tensor α) (nu : Int) : Except MergeError Unit :=
  if 1 ≤ nu ∧ nu ≤ (arr.ndim : Int) - 1 then Except.ok ()
  else Except.error MergeError.invalidSplitPoint

/-! Helper lemmas about index normalization. -/

lemma normIdx_natCast (n m : Nat) : normIdx n (m : Int) = m := by
  unfold normIdx; split <;> omega

lemma normIdx_nonneg_self (n : Nat) {i : Int} (h : 0 ≤ i) : normIdx n i = i := by
  unfold normIdx; split <;> omega

lemma normIdx_neg (n : Nat) {i : Int} (h : i < 0) : normIdx n i = i + n := by
  unfold normIdx; split <;> omega

/-! Helper lemmas about lists (shape decompositions). -/

lemma getD_append_cons {α : Type} (l₁ l₂ : List α) (a d : α) :
    (l₁ ++ a :: l₂).getD l₁.length d = a := by
  induction l₁ with
  | nil => rfl
  | cons x xs ih => simpa using ih

lemma take_sub_append_drop {α : Type} (l : List α) (b e : Nat) (hbe : b ≤ e) :
    (l.drop b).take (e - b) ++ l.drop e = l.drop b := by
  have h := List.take_append_drop (e - b) (l.drop b)
  rwa [List.drop_drop, Nat.add_sub_cancel' hbe] at h

lemma prod_shape_split (l : List Nat) (b e : Nat) (hbe : b ≤ e) :
    l.prod = ((l.take b).prod * (l.drop e).prod) * ((l.drop b).take (e - b)).prod := by
  calc l.prod = (l.take b ++ l.drop b).prod := by rw [List.take_append_drop]
    _ = (l.take b).prod * ((l.drop b).take (e - b) ++ l.drop e).prod := by
          rw [take_sub_append_drop l b e hbe, List.prod_append]
    _ = _ := by rw [List.prod_append]; ring

lemma take_getD_drop (l : List Nat) (t : Nat) (ht : t < l.length) :
    l.take t ++ l.getD t 0 :: l.drop (t + 1) = l := by
  rw [List.getD_eq_getElem _ _ ht, ← List.drop_eq_getElem_cons ht, List.take_append_drop]

/-! Evaluation lemmas for the embedded operations. -/

lemma reshapeInfer_eq_ok {α : Type} (arr : Tensor α) (b e : Nat) (hbe : b ≤ e)
    (hnz : (arr.shape.take b).prod * (arr.shape.drop e).prod ≠ 0) :
    reshapeInfer arr (arr.shape.take b) (arr.shape.drop e) =
      Except.ok ⟨arr.shape.take b ++ ((arr.shape.drop b).take (e - b)).prod ::
        arr.shape.drop e, arr.data⟩ := by
  have hsize : arr.size =
      ((arr.shape.take b).prod * (arr.shape.drop e).prod) *
        ((arr.shape.drop b).take (e - b)).prod :=
    prod_shape_split arr.shape b e hbe
  simp only [reshapeInfer]
  rw [hsize, if_neg (by simp [hnz, Nat.mul_mod_right]),
    Nat.mul_div_cancel_left _ (Nat.pos_of_ne_zero hnz)]

lemma group_natCast {α : Type} (arr : Tensor α) (b e : Nat) (hbe : b < e) (he : e ≤ arr.ndim) :
    group arr (b : Int) (e : Int) = reshapeInfer arr (arr.shape.take b) (arr.shape.drop e) := by
  simp only [group, normIdx_natCast]
  rw [if_pos ⟨Int.natCast_nonneg b, by exact_mod_cast hbe, by exact_mod_cast he⟩]
  simp [Int.toNat_ofNat]

lemma group_eq_ok {α : Type} (arr : Tensor α) (b e : Nat) (hbe : b < e) (he : e ≤ arr.ndim)
    (hnz : (arr.shape.take b).prod * (arr.shape.drop e).prod ≠ 0) :
    group arr (b : Int) (e : Int) =
      Except.ok ⟨arr.shape.take b ++ ((arr.shape.drop b).take (e - b)).prod ::
        arr.shape.drop e, arr.data⟩ := by
  rw [group_natCast arr b e hbe he, reshapeInfer_eq_ok arr b e (le_of_lt hbe) hnz]

lemma ungroup_natCast_ok {α : Type} (arr : Tensor α) (t : Nat) (split : List Nat)
    (ht : t < arr.ndim) (hp : arr.shape.getD t 0 = split.prod) :
    ungroup arr (t : Int) split =
      Except.ok ⟨arr.shape.take t ++ split ++ arr.shape.drop (t + 1), arr.data⟩ := by
  simp only [ungroup, normIdx_natCast]
  rw [if_pos ⟨Int.natCast_nonneg t, by exact_mod_cast ht⟩]
  simp [Int.toNat_ofNat, ← List.getD_eq_getElem?_getD, hp]

lemma group_congr_normIdx {α : Type} (arr : Tensor α) {b0 b1 e0 e1 : Int}
    (hb : normIdx arr.ndim b0 = normIdx arr.ndim b1)
    (he : normIdx arr.ndim e0 = normIdx arr.ndim e1) :
    group arr b0 e0 = group arr b1 e1 := by
  simp only [group, hb, he]

lemma ungroup_congr_normIdx {α : Type} (arr : Tensor α) {t0 t1 : Int} (split : List Nat)
    (ht : normIdx arr.ndim t0 = normIdx arr.ndim t1) :
    ungroup arr t0 split = ungroup arr t1 split := by
  simp only [ungroup, ht]

/-- Ungrouping the middle axis of a shape of the form
`pre ++ [prod mid] ++ post` into `mid` always succeeds. -/
lemma ungroup_mid {α : Type} (pre mid post : List Nat) (d : List α) :
    ungroup ⟨pre ++ mid.prod :: post, d⟩ (pre.length : Int) mid =
      Except.ok ⟨pre ++ mid ++ post, d⟩ := by
  have hnd : (Tensor.mk (α := α) (pre ++ mid.prod :: post) d).ndim =
      pre.length + (post.length + 1) := by
    simp [Tensor.ndim]
  rw [ungroup_natCast_ok _ pre.length mid (by omega) (getD_append_cons pre post _ 0)]
  congr 1
  have h1 : (pre ++ mid.prod :: post).take pre.length = pre := List.take_left pre _
  have h2 : (pre ++ mid.prod :: post).drop (pre.length + 1) = post := by
    simp [List.append_assoc]
  simp [h1, h2]

/-- Grouping the middle segment `mid` of a shape `pre ++ mid ++ post` yields
`pre ++ [prod mid] ++ post`, provided the outer axes have nonzero product
(otherwise the inferred `-1` axis of the underlying reshape is ill-defined). -/
lemma group_mid {α : Type} (pre mid post : List Nat) (d : List α) (hmid : mid ≠ [])
    (hnz : pre.prod * post.prod ≠ 0) :
    group ⟨pre ++ mid ++ post, d⟩ (pre.length : Int)
        ((pre.length + mid.length : Nat) : Int) =
      Except.ok ⟨pre ++ mid.prod :: post, d⟩ := by
  have hmlen : 0 < mid.length := List.length_pos.mpr hmid
  have htake : (pre ++ mid ++ post).take pre.length = pre := by
    rw [List.append_assoc]; exact List.take_left pre _
  have hdrop : (pre ++ mid ++ post).drop (pre.length + mid.length) = post := by
    simp
  have hdropb : (pre ++ mid ++ post).drop pre.length = mid ++ post := by
    rw [List.append_assoc]; exact List.drop_left pre _
  have hmid2 : ((pre ++ mid ++ post).drop pre.length).take
      (pre.length + mid.length - pre.length) = mid := by
    rw [hdropb, Nat.add_sub_cancel_left]; exact List.take_left mid post
  rw [group_eq_ok _ pre.length (pre.length + mid.length) (by omega)
    (by simp [Tensor.ndim]) (by rw [htake, hdrop]; exact hnz)]
  rw [htake, hdrop, hmid2]

lemma exceptBind_ok {ε α β : Type} (a : α) (f : α → Except ε β) :
    (Except.ok a : Except ε α).bind f = f a := rfl

/-! Claim theorems. -/

/-- C3 (amended): for every tensor and every `b, e` that pass validation after
negative-index normalization, `group(T, b, e)` returns a tensor whose shape is
`shape(T)[:b] + (prod(shape(T)[b:e]),) + shape(T)[e:]` — provided every axis
of `T` outside `[b, e)` is nonzero.  When some axis outside the merged range
has size zero, the underlying reshape cannot infer its `-1` axis and `group`
raises instead (see the counterexample), so the law does not extend to all
tensors with a zero-sized axis. -/
theorem group_shape_law {α : Type} (arr : Tensor α) (b0 e0 : Int)
    (hv : 0 ≤ normIdx arr.ndim b0 ∧ normIdx arr.ndim b0 < normIdx arr.ndim e0 ∧
      normIdx arr.ndim e0 ≤ (arr.ndim : Int))
    (hnz : (arr.shape.take (normIdx arr.ndim b0).toNat).prod *
      (arr.shape.drop (normIdx arr.ndim e0).toNat).prod ≠ 0) :
    group arr b0 e0 =
      Except.ok ⟨arr.shape.take (normIdx arr.ndim b0).toNat ++
        ((arr.shape.drop (normIdx arr.ndim b0).toNat).take
          ((normIdx arr.ndim e0).toNat - (normIdx arr.ndim b0).toNat)).prod ::
        arr.shape.drop (normIdx arr.ndim e0).toNat, arr.data⟩ := by
  obtain ⟨h1, h2, h3⟩ := hv
  have hb : (((normIdx arr.ndim b0).toNat : Nat) : Int) = normIdx arr.ndim b0 :=
    Int.toNat_of_nonneg h1
  have he : (((normIdx arr.ndim e0).toNat : Nat) : Int) = normIdx arr.ndim e0 :=
    Int.toNat_of_nonneg (h1.trans h2.le)
  have hbe : (normIdx arr.ndim b0).toNat < (normIdx arr.ndim e0).toNat := by omega
  have hee : (normIdx arr.ndim e0).toNat ≤ arr.ndim := by omega
  have hcongr : group arr b0 e0 =
      group arr ((normIdx arr.ndim b0).toNat : Int) ((normIdx arr.ndim e0).toNat : Int) :=
    group_congr_normIdx arr (by rw [normIdx_natCast]; exact hb.symm)
      (by rw [normIdx_natCast]; exact he.symm)
  rw [hcongr, group_eq_ok arr _ _ hbe hee hnz]

/-- C3 counterexample: shape `(3, 0)`, `b = 0, e = 1` passes validation
(`0 <= 0 < 1 <= 2`) and the claim predicts a resulting shape `(3, 0)`, but
the code raises NumPy's reshape `ValueError` ("cannot reshape array of size 0
...") because the `-1` axis cannot be inferred when the product of the axes
outside the merged range is zero. -/
theorem group_shape_law_cex :
    group (⟨[3, 0], []⟩ : Tensor Nat) 0 1 = Except.error MergeError.cannotReshape ∧
    group (⟨[3, 0], []⟩ : Tensor Nat) 0 1 ≠
      Except.ok (⟨[3, 0], []⟩ : Tensor Nat) := by
  have e1 : group (⟨[3, 0], []⟩ : Tensor Nat) 0 1 =
      Except.error MergeError.cannotReshape := rfl
  exact ⟨e1, fun h => Except.noConfusion (e1.symm.trans h)⟩

/-- C3 witness: grouping axes 1..2 of shape `(2, 3, 4)` (via the negative
index `-2`) yields shape `(2, 12)`. -/
theorem group_shape_law_witness :
    group (⟨[2, 3, 4], List.range 24⟩ : Tensor Nat) (-2) 3 =
      Except.ok (⟨[2, 12], List.range 24⟩ : Tensor Nat) :=
  group_shape_law (⟨[2, 3, 4], List.range 24⟩ : Tensor Nat) (-2) 3
    (by decide) (by decide)

/-- C1 (amended): for every tensor `T` and every axis range `[b, e)` valid
after negative-index normalization, with (i) `b >= 0` as given (a negative
`b` is re-normalized by the inner `ungroup` against the grouped tensor's
smaller `ndim` and generally goes out of range) and (ii) every axis of `T`
outside `[b, e)` nonzero (else `group` itself fails at its reshape):
`ungroup(group(T, b, e), b, shape(T)[b:e])` returns `T` element-for-element. -/
theorem group_then_ungroup_id {α : Type} (arr : Tensor α) (b0 e0 : Int)
    (hb0 : 0 ≤ b0)
    (hv : b0 < normIdx arr.ndim e0 ∧ normIdx arr.ndim e0 ≤ (arr.ndim : Int))
    (hnz : (arr.shape.take b0.toNat).prod *
      (arr.shape.drop (normIdx arr.ndim e0).toNat).prod ≠ 0) :
    (group arr b0 e0).bind (fun g => ungroup g b0
      ((arr.shape.drop b0.toNat).take ((normIdx arr.ndim e0).toNat - b0.toNat))) =
      Except.ok arr := by
  obtain ⟨h2, h3⟩ := hv
  obtain ⟨b, rfl⟩ : ∃ b : Nat, b0 = (b : Int) := ⟨b0.toNat, (Int.toNat_of_nonneg hb0).symm⟩
  simp only [Int.toNat_ofNat] at hnz ⊢
  have he : (((normIdx arr.ndim e0).toNat : Nat) : Int) = normIdx arr.ndim e0 :=
    Int.toNat_of_nonneg ((Int.natCast_nonneg b).trans h2.le)
  have hbe : b < (normIdx arr.ndim e0).toNat := by omega
  have hee : (normIdx arr.ndim e0).toNat ≤ arr.ndim := by omega
  have hg : group arr (b : Int) e0 = group arr (b : Int) ((normIdx arr.ndim e0).toNat : Int) :=
    group_congr_normIdx arr rfl (by rw [normIdx_natCast]; exact he.symm)
  rw [hg, group_eq_ok arr b _ hbe hee hnz, exceptBind_ok]
  have hlen : (arr.shape.take b).length = b := by
    rw [List.length_take]; exact min_eq_left (hbe.le.trans hee)
  have hm := ungroup_mid (arr.shape.take b)
    ((arr.shape.drop b).take ((normIdx arr.ndim e0).toNat - b))
    (arr.shape.drop (normIdx arr.ndim e0).toNat) arr.data
  rw [hlen] at hm
  rw [hm]
  have hs : arr.shape.take b ++
      (arr.shape.drop b).take ((normIdx arr.ndim e0).toNat - b) ++
      arr.shape.drop (normIdx arr.ndim e0).toNat = arr.shape := by
    rw [List.append_assoc, take_sub_append_drop arr.shape b _ hbe.le,
      List.take_append_drop]
  rw [hs]

/-- C1 counterexample: two valid-after-normalization ranges on which the
round trip does not return `T`.  First, with a zero axis outside the range
(`T` of shape `(0, 2)`, `b = 1, e = 2`) the inner `group` already raises at
its reshape.  Second, with a negative `b = -3` on shape `(2, 2, 2)` and
`e = 3` (normalizing to the valid range `[0, 3)`), `group` succeeds but
`ungroup` re-normalizes `-3` against the grouped tensor's `ndim = 1`,
yielding target `-2`, which is rejected as `InvalidAxisIndex`. -/
theorem group_then_ungroup_id_cex :
    ((group (⟨[0, 2], []⟩ : Tensor Nat) 1 2).bind (fun g => ungroup g 1 [2]) =
        Except.error MergeError.cannotReshape ∧
      (group (⟨[0, 2], []⟩ : Tensor Nat) 1 2).bind (fun g => ungroup g 1 [2]) ≠
        Except.ok (⟨[0, 2], []⟩ : Tensor Nat)) ∧
    ((group (⟨[2, 2, 2], List.range 8⟩ : Tensor Nat) (-3) 3).bind
        (fun g => ungroup g (-3) [2, 2, 2]) =
        Except.error MergeError.invalidAxisIndex ∧
      (group (⟨[2, 2, 2], List.range 8⟩ : Tensor Nat) (-3) 3).bind
        (fun g => ungroup g (-3) [2, 2, 2]) ≠
        Except.ok (⟨[2, 2, 2], List.range 8⟩ : Tensor Nat)) := by
  have e1 : (group (⟨[0, 2], []⟩ : Tensor Nat) 1 2).bind (fun g => ungroup g 1 [2]) =
      Except.error MergeError.cannotReshape := rfl
  have e2 : (group (⟨[2, 2, 2], List.range 8⟩ : Tensor Nat) (-3) 3).bind
      (fun g => ungroup g (-3) [2, 2, 2]) =
      Except.error MergeError.invalidAxisIndex := rfl
  exact ⟨⟨e1, fun h => Except.noConfusion (e1.symm.trans h)⟩,
    ⟨e2, fun h => Except.noConfusion (e2.symm.trans h)⟩⟩

/-- C1 witness: the spec's concrete scenario — grouping axes 1..3 of a
`(2, 3, 4)` tensor to `(2, 12)` and ungrouping with `(3, 4)` restores the
original shape and values. -/
theorem group_then_ungroup_id_witness :
    (group (⟨[2, 3, 4], List.range 24⟩ : Tensor Nat) 1 3).bind
      (fun g => ungroup g 1 [3, 4]) =
      Except.ok (⟨[2, 3, 4], List.range 24⟩ : Tensor Nat) :=
  group_then_ungroup_id (⟨[2, 3, 4], List.range 24⟩ : Tensor Nat) 1 3
    (by decide) (by decide) (by decide)

/-- C8 (amended): for every tensor `T`, in-range axis `t`, and nonempty split
sequence with `prod(split) = shape(T)[t]`, provided every axis of `T` other
than axis `t` is nonzero (else the inner `group` fails at its reshape),
`group(ungroup(T, t, split), t, t + len(split))` returns `T`
element-for-element.  For the empty split the inner `group(·, t, t)` always
fails its strict `begin < end` validation, so the law does not include the
empty sequence (see the counterexample). -/
theorem ungroup_then_group_id {α : Type} (arr : Tensor α) (t : Nat) (split : List Nat)
    (ht : t < arr.ndim) (hp : split.prod = arr.shape.getD t 0) (hne : split ≠ [])
    (hnz : (arr.shape.take t).prod * (arr.shape.drop (t + 1)).prod ≠ 0) :
    (ungroup arr (t : Int) split).bind
      (fun u => group u (t : Int) ((t + split.length : Nat) : Int)) = Except.ok arr := by
  rw [ungroup_natCast_ok arr t split ht hp.symm, exceptBind_ok]
  have hlen : (arr.shape.take t).length = t := by
    rw [List.length_take]; exact min_eq_left ht.le
  have hm := group_mid (arr.shape.take t) split (arr.shape.drop (t + 1)) arr.data hne hnz
  rw [hlen] at hm
  rw [hm, hp, take_getD_drop arr.shape t ht]

/-- C8 counterexample: two instances where the claim fails.  First, the empty
split on `T` of shape `(1,)`, `t = 0`: `ungroup(T, 0, ())` succeeds (empty
product 1), but `group(·, 0, 0)` is rejected because `begin < end` is strict.
Second, a zero axis outside the target (`T` of shape `(0, 6)`, `t = 1`,
`split = (2, 3)`): the inner `group` fails at its reshape inference. -/
theorem ungroup_then_group_id_cex :
    ((ungroup (⟨[1], [5]⟩ : Tensor Nat) 0 []).bind (fun u => group u 0 0) =
        Except.error MergeError.invalidAxisRange ∧
      (ungroup (⟨[1], [5]⟩ : Tensor Nat) 0 []).bind (fun u => group u 0 0) ≠
        Except.ok (⟨[1], [5]⟩ : Tensor Nat)) ∧
    ((ungroup (⟨[0, 6], []⟩ : Tensor Nat) 1 [2, 3]).bind (fun u => group u 1 3) =
        Except.error MergeError.cannotReshape ∧
      (ungroup (⟨[0, 6], []⟩ : Tensor Nat) 1 [2, 3]).bind (fun u => group u 1 3) ≠
        Except.ok (⟨[0, 6], []⟩ : Tensor Nat)) := by
  have e1 : (ungroup (⟨[1], [5]⟩ : Tensor Nat) 0 []).bind (fun u => group u 0 0) =
      Except.error MergeError.invalidAxisRange := rfl
  have e2 : (ungroup (⟨[0, 6], []⟩ : Tensor Nat) 1 [2, 3]).bind (fun u => group u 1 3) =
      Except.error MergeError.cannotReshape := rfl
  exact ⟨⟨e1, fun h => Except.noConfusion (e1.symm.trans h)⟩,
    ⟨e2, fun h => Except.noConfusion (e2.symm.trans h)⟩⟩

/-- C8 witness: splitting axis 1 of a `(4, 6)` tensor into `(2, 3)` and
regrouping axes `[1, 3)` restores the original tensor. -/
theorem ungroup_then_group_id_witness :
    (ungroup (⟨[4, 6], List.range 24⟩ : Tensor Nat) 1 [2, 3]).bind
      (fun u => group u 1 3) =
      Except.ok (⟨[4, 6], List.range 24⟩ : Tensor Nat) :=
  ungroup_then_group_id (⟨[4, 6], List.range 24⟩ : Tensor Nat) 1 [2, 3]
    (by decide) (by decide) (by decide) (by decide)

/-- C4: `group(T, b, e)` fails with the `InvalidAxisRange` error if and only
if, after normalizing negative indices by adding `ndim(T)`, the condition
`0 <= b < e <= ndim(T)` does not hold (so in particular whenever `b >= e`,
`b < 0`, or `e > ndim(T)` after normalization); on that failure no result
tensor is produced (the `Except` is an error, not an `ok`). -/
theorem group_invalidAxisRange_iff {α : Type} (arr : Tensor α) (b0 e0 : Int) :
    group arr b0 e0 = Except.error MergeError.invalidAxisRange ↔
      ¬(0 ≤ normIdx arr.ndim b0 ∧ normIdx arr.ndim b0 < normIdx arr.ndim e0 ∧
        normIdx arr.ndim e0 ≤ (arr.ndim : Int)) := by
  simp only [group]
  split_ifs with h
  · simp only [reshapeInfer]
    split_ifs <;> simp [h]
  · simp [h]

/-- C4 witness: at a concrete invalid input (`begin >= end`) the theorem
yields the `InvalidAxisRange` failure. -/
theorem group_invalidAxisRange_iff_witness :
    group (⟨[2, 3], List.range 6⟩ : Tensor Nat) 1 1 =
      Except.error MergeError.invalidAxisRange :=
  (group_invalidAxisRange_iff (⟨[2, 3], List.range 6⟩ : Tensor Nat) 1 1).mpr (by decide)

/-- C5: `ungroup(T, t, split)` fails with `InvalidAxisIndex` if and only if
`t` is outside `[0, ndim(T))` after negative-index normalization; for
in-range `t` it fails with `ShapeMismatch` if and only if
`prod(split) != shape(T)[t]`; otherwise it returns a tensor with shape
`shape(T)[:t] + tuple(split) + shape(T)[t+1:]`. -/
theorem ungroup_validation {α : Type} (arr : Tensor α) (t0 : Int) (split : List Nat) :
    (ungroup arr t0 split = Except.error MergeError.invalidAxisIndex ↔
      ¬(0 ≤ normIdx arr.ndim t0 ∧ normIdx arr.ndim t0 < (arr.ndim : Int))) ∧
    ((0 ≤ normIdx arr.ndim t0 ∧ normIdx arr.ndim t0 < (arr.ndim : Int)) →
      ((ungroup arr t0 split = Except.error MergeError.shapeMismatch ↔
        split.prod ≠ arr.shape.getD (normIdx arr.ndim t0).toNat 0) ∧
       (split.prod = arr.shape.getD (normIdx arr.ndim t0).toNat 0 →
        ungroup arr t0 split =
          Except.ok ⟨arr.shape.take (normIdx arr.ndim t0).toNat ++ split ++
            arr.shape.drop ((normIdx arr.ndim t0).toNat + 1), arr.data⟩))) := by
  simp only [ungroup]
  split_ifs with h1 h2
  · exact ⟨by simp [h1], fun _ => ⟨iff_of_true rfl (Ne.symm h2), fun hp => absurd hp.symm h2⟩⟩
  · exact ⟨by simp [h1], fun _ =>
      ⟨iff_of_false (by simp) (not_not_intro (not_not.mp h2).symm), fun _ => rfl⟩⟩
  · exact ⟨by simp [h1], fun h => absurd h h1⟩

/-- C5 witness: a concrete in-range split succeeds with the predicted shape. -/
theorem ungroup_validation_witness :
    ungroup (⟨[2, 12], List.range 24⟩ : Tensor Nat) 1 [3, 4] =
      Except.ok ⟨[2, 3, 4], List.range 24⟩ :=
  ((ungroup_validation (⟨[2, 12], List.range 24⟩ : Tensor Nat) 1 [3, 4]).2
    (by decide)).2 (by decide)

/-- C6: (spec-modelled, `decomp.py` absent from `src/`) for every tensor with
`ndim >= 2`, `tsvd(T, nu)` fails with `InvalidSplitPoint` exactly when `nu`
lies outside `[1, ndim(T) - 1]`; in particular it fails for `nu = 0` and for
`nu = ndim(T)`. -/
theorem tsvd_splitPoint_validation {α : Type} (arr : Tensor α) (nu : Int)
    (_hd : 2 ≤ arr.ndim) :
    (tsvdCheck arr nu = Except.error MergeError.invalidSplitPoint ↔
      ¬(1 ≤ nu ∧ nu ≤ (arr.ndim : Int) - 1)) ∧
    tsvdCheck arr 0 = Except.error MergeError.invalidSplitPoint ∧
    tsvdCheck arr (arr.ndim : Int) = Except.error MergeError.invalidSplitPoint := by
  refine ⟨?_, ?_, ?_⟩
  · simp only [tsvdCheck]; split_ifs with h <;> simp [h]
  · simp [tsvdCheck]
  · simp only [tsvdCheck]; rw [if_neg (by omega)]

/-- C6 witness: the 3×3 matrix case of the test suite, `nu = 0` and
`nu = ndim = 2` rejected. -/
theorem tsvd_splitPoint_validation_witness :
    tsvdCheck (⟨[3, 3], List.range 9⟩ : Tensor Nat) 0 =
        Except.error MergeError.invalidSplitPoint ∧
      tsvdCheck (⟨[3, 3], List.range 9⟩ : Tensor Nat) 2 =
        Except.error MergeError.invalidSplitPoint :=
  ⟨(tsvd_splitPoint_validation (⟨[3, 3], List.range 9⟩ : Tensor Nat) 0 (by decide)).2.1,
   (tsvd_splitPoint_validation (⟨[3, 3], List.range 9⟩ : Tensor Nat) 0 (by decide)).2.2⟩

/-- C7: negative axis indices are normalized by adding `ndim` exactly once
before bounds validation: for `-ndim(T) <= i < 0`, a call with index `i`
behaves identically to the same call with `i + ndim(T)`, for `begin` and
`end` of `group` and for `target` of `ungroup`. -/
theorem negIdx_normalization {α : Type} (arr : Tensor α) (i : Int)
    (hlo : -(arr.ndim : Int) ≤ i) (hhi : i < 0) :
    (∀ e0 : Int, group arr i e0 = group arr (i + arr.ndim) e0) ∧
    (∀ b0 : Int, group arr b0 i = group arr b0 (i + arr.ndim)) ∧
    (∀ split : List Nat, ungroup arr i split = ungroup arr (i + arr.ndim) split) := by
  have hkey : normIdx arr.ndim i = normIdx arr.ndim (i + arr.ndim) := by
    rw [normIdx_neg _ hhi, normIdx_nonneg_self _ (by omega)]
  exact ⟨fun e0 => group_congr_normIdx arr hkey rfl,
    fun b0 => group_congr_normIdx arr rfl hkey,
    fun split => ungroup_congr_normIdx arr split hkey⟩

/-- C7 witness: on a rank-2 tensor, `begin = -2` behaves as `begin = 0`. -/
theorem negIdx_normalization_witness :
    group (⟨[2, 3], List.range 6⟩ : Tensor Nat) (-2) 2 =
      group (⟨[2, 3], List.range 6⟩ : Tensor Nat) (-2 + 2) 2 :=
  (negIdx_normalization (⟨[2, 3], List.range 6⟩ : Tensor Nat) (-2)
    (by decide) (by decide)).1 2

/-- C9: for in-range `t`, `ungroup(T, t, ())` with the empty split succeeds
exactly when `shape(T)[t] = 1` (the empty product), returning the shape with
axis `t` removed; otherwise it fails with `ShapeMismatch`. -/
theorem ungroup_empty_split {α : Type} (arr : Tensor α) (t : Nat) (ht : t < arr.ndim) :
    (arr.shape.getD t 0 = 1 →
      ungroup arr (t : Int) [] =
        Except.ok ⟨arr.shape.take t ++ arr.shape.drop (t + 1), arr.data⟩) ∧
    (arr.shape.getD t 0 ≠ 1 →
      ungroup arr (t : Int) [] = Except.error MergeError.shapeMismatch) := by
  constructor
  · intro h1
    have h := ungroup_natCast_ok arr t [] ht (by simpa using h1)
    simpa using h
  · intro h1
    simp only [ungroup, normIdx_natCast]
    rw [if_pos ⟨Int.natCast_nonneg t, by exact_mod_cast ht⟩,
      if_pos (by simpa [Int.toNat_ofNat] using h1)]

/-- C9 witness: removing a length-1 axis succeeds; a length-2 axis is a
`ShapeMismatch`. -/
theorem ungroup_empty_split_witness :
    ungroup (⟨[3, 1], List.range 3⟩ : Tensor Nat) 1 [] =
        Except.ok ⟨[3], List.range 3⟩ ∧
      ungroup (⟨[3, 2], List.range 6⟩ : Tensor Nat) 1 [] =
        Except.error MergeError.shapeMismatch :=
  ⟨(ungroup_empty_split (⟨[3, 1], List.range 3⟩ : Tensor Nat) 1 (by decide)).1 (by decide),
   (ungroup_empty_split (⟨[3, 2], List.range 6⟩ : Tensor Nat) 1 (by decide)).2 (by decide)⟩

/-- C10: `ungroup` validates its target index before ever looking at `split`:
for an out-of-range target (after normalization) it returns
`InvalidAxisIndex` whatever `split` is (even one whose product would also
mismatch), and the call is a pure function of its arguments — on failure no
reshaped tensor is produced and the input is untouched. -/
theorem ungroup_checks_target_first {α : Type} (arr : Tensor α) (t0 : Int)
    (split split' : List Nat)
    (h : ¬(0 ≤ normIdx arr.ndim t0 ∧ normIdx arr.ndim t0 < (arr.ndim : Int))) :
    ungroup arr t0 split = Except.error MergeError.invalidAxisIndex ∧
    ungroup arr t0 split = ungroup arr t0 split' := by
  have h1 : ungroup arr t0 split = Except.error MergeError.invalidAxisIndex := by
    simp only [ungroup]; rw [if_neg h]
  have h2 : ungroup arr t0 split' = Except.error MergeError.invalidAxisIndex := by
    simp only [ungroup]; rw [if_neg h]
  exact ⟨h1, h1.trans h2.symm⟩

/-- C10 witness: target 5 on a rank-1 tensor is rejected with
`InvalidAxisIndex`, for a `split` whose product also mismatches. -/
theorem ungroup_checks_target_first_witness :
    ungroup (⟨[2], [7, 8]⟩ : Tensor Nat) 5 [3] =
      Except.error MergeError.invalidAxisIndex :=
  (ungroup_checks_target_first (⟨[2], [7, 8]⟩ : Tensor Nat) 5 [3] [9] (by decide)).1

end ProjectorUtils
